import Mathlib

/-!
Verification of the `@bookmarks/shared-types` contract (`src/router.ts`).

The repository is a declarations-only TypeScript package: three entity
interfaces (`Space`, `Group`, `Bookmark`) and a procedure-call contract
(`AppRouter`) listing, for four resource families (`spaces`, `groups`,
`bookmarks`, `sync`), each operation's invocation kind (`query` vs `mutate`),
its input object shape, and its output shape.

The shallow embedding below transcribes those structural types as data:

* `Value`    — the runtime values the contract's types classify (strings,
  numbers, booleans, `null`, native dates, arrays, objects).
* `PrimTy` / `FieldTy` — the field-level types that occur in `router.ts`:
  primitives, two-way unions (`string | null`, `string | Date`), and arrays
  of primitives (`string[]`).
* `ObjTy`    — an object type: a list of (field name, optional?, field type),
  in source order; `optional? = true` transcribes a `name?:` field.
* `OutTy`    — an operation's output shape: an object type or an array of an
  object type (`Promise<Space[]>` etc.; the `Promise` wrapper carries no
  structural content and is dropped).
* `Op` / `AppRouter` — the operations of the contract, transcribed one-to-one
  from `router.ts`.

Satisfaction of a type by a value follows TypeScript's structural rules:
`satObj strict v t` checks every declared field (a required field must be
present and well-typed, an optional field may be absent), and when
`strict = true` additionally performs TypeScript's excess-property check —
the check the compiler applies to an object literal supplied directly as an
argument, which rejects keys not declared by the target type.  With
`strict = false` extra keys are allowed (width subtyping for non-literal
values).  "An input is accepted by the contract's static shape" is the
`strict = true` literal check.
-/

namespace BookmarksContract

/-- A runtime value of the contract's data language: the JS values that the
structural types in `router.ts` classify. Dates are abstracted to an integer
timestamp; objects are key/value lists. -/
inductive Value where
  | vstr (s : String)
  | vnum (n : Int)
  | vbool (b : Bool)
  | vnull
  | vdate (ms : Int)
  | varr (elems : List Value)
  | vobj (kvs : List (String × Value))

/-- Primitive types occurring in `router.ts`. -/
inductive PrimTy where
  | str
  | num
  | bool
  | null
  | date
deriving DecidableEq

/-- The field-level types occurring in `router.ts`: a primitive, a two-way
union of primitives (`string | null`, `string | Date`), or an array of a
primitive (`string[]`). Every field type in the source falls in this
grammar. -/
inductive FieldTy where
  | prim (p : PrimTy)
  | union2 (a b : PrimTy)
  | arrOf (p : PrimTy)
deriving DecidableEq

/-- An object type: declared fields in source order, each with its name,
whether it is optional (`name?:` in the source), and its type. -/
structure ObjTy where
  fields : List (String × Bool × FieldTy)
deriving DecidableEq

/-- An operation's output shape: a single object or an array of objects. -/
inductive OutTy where
  | objT (t : ObjTy)
  | arrObjT (t : ObjTy)
deriving DecidableEq

/-- Invocation kind of an operation: side-effect-free read (`query`) or
state-mutating call (`mutate`). -/
inductive OpKind where
  | query
  | mutate
deriving DecidableEq

/-- One operation of the contract: its resource family and name (the path,
e.g. `spaces.create`), its kind, its declared input object shape (`none` for
the input-less queries), and its output shape. -/
structure Op where
  family : String
  name : String
  kind : OpKind
  input : Option ObjTy
  output : OutTy
deriving DecidableEq

/-- First value bound to a key in an object value, if any. -/
def lookupField (k : String) : List (String × Value) → Option Value
  | [] => none
  | (k', v) :: rest => if k' = k then some v else lookupField k rest

/-- A value inhabits a primitive type. -/
def satPrim : Value → PrimTy → Bool
  | .vstr _, .str => true
  | .vnum _, .num => true
  | .vbool _, .bool => true
  | .vnull, .null => true
  | .vdate _, .date => true
  | _, _ => false

/-- A value inhabits a field type. -/
def satFieldTy : Value → FieldTy → Bool
  | v, .prim p => satPrim v p
  | v, .union2 a b => satPrim v a || satPrim v b
  | .varr vs, .arrOf p => vs.all fun w => satPrim w p
  | _, .arrOf _ => false

/-- Every declared field is satisfied by the object value: a present field's
value must inhabit the field's type, and an absent field must be optional. -/
def satFields (kvs : List (String × Value)) (fs : List (String × Bool × FieldTy)) : Bool :=
  fs.all fun f =>
    match lookupField f.1 kvs with
    | some v => satFieldTy v f.2.2
    | none => f.2.1

/-- Whether a field name appears among the declared fields. -/
def declaredField (fs : List (String × Bool × FieldTy)) (k : String) : Bool :=
  fs.any fun f => f.1 == k

/-- A value satisfies an object type.  `strict = true` adds TypeScript's
excess-property check for object literals: every key of the value must be a
declared field.  `strict = false` is plain width subtyping. -/
def satObj (strict : Bool) : Value → ObjTy → Bool
  | .vobj kvs, t =>
      satFields kvs t.fields &&
        (!strict || kvs.all fun kv => declaredField t.fields kv.1)
  | _, _ => false

/-- Names of the required (non-optional) fields of an object type, in source
order. -/
def requiredNames (t : ObjTy) : List String :=
  (t.fields.filter fun f => !f.2.1).map fun f => f.1

/-- The declared (optional?, type) of a field name in an object type. -/
def declaredType (t : ObjTy) (k : String) : Option (Bool × FieldTy) :=
  (t.fields.find? fun f => f.1 == k).map fun f => f.2

/-- `interface Space` (`router.ts`): id, userId, name, icon?, color?, order,
isArchived, createdAt, updatedAt. -/
def Space : ObjTy := ⟨[
  ("id", false, .prim .str),
  ("userId", false, .prim .str),
  ("name", false, .prim .str),
  ("icon", true, .union2 .str .null),
  ("color", true, .union2 .str .null),
  ("order", false, .prim .num),
  ("isArchived", false, .prim .bool),
  ("createdAt", false, .union2 .str .date),
  ("updatedAt", false, .union2 .str .date)]⟩

/-- `interface Group` (`router.ts`): id, userId, spaceId, name, icon?, order,
isArchived, createdAt, updatedAt. -/
def Group : ObjTy := ⟨[
  ("id", false, .prim .str),
  ("userId", false, .prim .str),
  ("spaceId", false, .prim .str),
  ("name", false, .prim .str),
  ("icon", true, .union2 .str .null),
  ("order", false, .prim .num),
  ("isArchived", false, .prim .bool),
  ("createdAt", false, .union2 .str .date),
  ("updatedAt", false, .union2 .str .date)]⟩

/-- `interface Bookmark` (`router.ts`): id, userId, spaceId, groupId, title,
url, faviconUrl?, description?, order, isPinned, isArchived, createdAt,
updatedAt. -/
def Bookmark : ObjTy := ⟨[
  ("id", false, .prim .str),
  ("userId", false, .prim .str),
  ("spaceId", false, .prim .str),
  ("groupId", false, .prim .str),
  ("title", false, .prim .str),
  ("url", false, .prim .str),
  ("faviconUrl", true, .union2 .str .null),
  ("description", true, .union2 .str .null),
  ("order", false, .prim .num),
  ("isPinned", false, .prim .bool),
  ("isArchived", false, .prim .bool),
  ("createdAt", false, .union2 .str .date),
  ("updatedAt", false, .union2 .str .date)]⟩

/-- The `{ success: boolean }` result shape of every delete/reorder
operation. -/
def successShape : ObjTy := ⟨[("success", false, .prim .bool)]⟩

namespace spaces

/-- Input of `spaces.create`: id, name, icon?, color?, order. -/
def createInput : ObjTy := ⟨[
  ("id", false, .prim .str),
  ("name", false, .prim .str),
  ("icon", true, .union2 .str .null),
  ("color", true, .union2 .str .null),
  ("order", false, .prim .num)]⟩

/-- Input of `spaces.update`: id, name?, icon?, color?, isArchived?. -/
def updateInput : ObjTy := ⟨[
  ("id", false, .prim .str),
  ("name", true, .prim .str),
  ("icon", true, .union2 .str .null),
  ("color", true, .union2 .str .null),
  ("isArchived", true, .prim .bool)]⟩

/-- Input of `spaces.delete`: id. -/
def deleteInput : ObjTy := ⟨[("id", false, .prim .str)]⟩

/-- Input of `spaces.reorder`: orderedIds. -/
def reorderInput : ObjTy := ⟨[("orderedIds", false, .arrOf .str)]⟩

def list : Op := ⟨"spaces", "list", .query, none, .arrObjT Space⟩
def create : Op := ⟨"spaces", "create", .mutate, some createInput, .objT Space⟩
def update : Op := ⟨"spaces", "update", .mutate, some updateInput, .objT Space⟩
def delete : Op := ⟨"spaces", "delete", .mutate, some deleteInput, .objT successShape⟩
def reorder : Op := ⟨"spaces", "reorder", .mutate, some reorderInput, .objT successShape⟩

end spaces

namespace groups

/-- Input of `groups.create`: id, spaceId, name, icon?, order. -/
def createInput : ObjTy := ⟨[
  ("id", false, .prim .str),
  ("spaceId", false, .prim .str),
  ("name", false, .prim .str),
  ("icon", true, .union2 .str .null),
  ("order", false, .prim .num)]⟩

/-- Input of `groups.update`: id, name?, icon?, spaceId?, isArchived?. -/
def updateInput : ObjTy := ⟨[
  ("id", false, .prim .str),
  ("name", true, .prim .str),
  ("icon", true, .union2 .str .null),
  ("spaceId", true, .prim .str),
  ("isArchived", true, .prim .bool)]⟩

/-- Input of `groups.delete`: id. -/
def deleteInput : ObjTy := ⟨[("id", false, .prim .str)]⟩

/-- Input of `groups.reorder`: spaceId, orderedIds. -/
def reorderInput : ObjTy := ⟨[
  ("spaceId", false, .prim .str),
  ("orderedIds", false, .arrOf .str)]⟩

def list : Op := ⟨"groups", "list", .query, none, .arrObjT Group⟩
def create : Op := ⟨"groups", "create", .mutate, some createInput, .objT Group⟩
def update : Op := ⟨"groups", "update", .mutate, some updateInput, .objT Group⟩
def delete : Op := ⟨"groups", "delete", .mutate, some deleteInput, .objT successShape⟩
def reorder : Op := ⟨"groups", "reorder", .mutate, some reorderInput, .objT successShape⟩

end groups

namespace bookmarks

/-- Input of `bookmarks.create`: id, spaceId, groupId, title, url,
description?, order.  (No `faviconUrl` field is declared here.) -/
def createInput : ObjTy := ⟨[
  ("id", false, .prim .str),
  ("spaceId", false, .prim .str),
  ("groupId", false, .prim .str),
  ("title", false, .prim .str),
  ("url", false, .prim .str),
  ("description", true, .union2 .str .null),
  ("order", false, .prim .num)]⟩

/-- Input of `bookmarks.update`: id, title?, url?, description?, faviconUrl?,
groupId?, spaceId?, isPinned?, isArchived?. -/
def updateInput : ObjTy := ⟨[
  ("id", false, .prim .str),
  ("title", true, .prim .str),
  ("url", true, .prim .str),
  ("description", true, .union2 .str .null),
  ("faviconUrl", true, .union2 .str .null),
  ("groupId", true, .prim .str),
  ("spaceId", true, .prim .str),
  ("isPinned", true, .prim .bool),
  ("isArchived", true, .prim .bool)]⟩

/-- Input of `bookmarks.delete`: id. -/
def deleteInput : ObjTy := ⟨[("id", false, .prim .str)]⟩

/-- Input of `bookmarks.reorder`: groupId, orderedIds. -/
def reorderInput : ObjTy := ⟨[
  ("groupId", false, .prim .str),
  ("orderedIds", false, .arrOf .str)]⟩

/-- Input of `bookmarks.move`: id, groupId, spaceId (all required). -/
def moveInput : ObjTy := ⟨[
  ("id", false, .prim .str),
  ("groupId", false, .prim .str),
  ("spaceId", false, .prim .str)]⟩

def list : Op := ⟨"bookmarks", "list", .query, none, .arrObjT Bookmark⟩
def create : Op := ⟨"bookmarks", "create", .mutate, some createInput, .objT Bookmark⟩
def update : Op := ⟨"bookmarks", "update", .mutate, some updateInput, .objT Bookmark⟩
def delete : Op := ⟨"bookmarks", "delete", .mutate, some deleteInput, .objT successShape⟩
def reorder : Op := ⟨"bookmarks", "reorder", .mutate, some reorderInput, .objT successShape⟩
def move : Op := ⟨"bookmarks", "move", .mutate, some moveInput, .objT Bookmark⟩

end bookmarks

namespace sync

/-- Input of `sync.ensureUser`: email?, name?, avatarUrl? (all optional
plain strings). -/
def ensureUserInput : ObjTy := ⟨[
  ("email", true, .prim .str),
  ("name", true, .prim .str),
  ("avatarUrl", true, .prim .str)]⟩

def ensureUser : Op :=
  ⟨"sync", "ensureUser", .mutate, some ensureUserInput, .objT ⟨[("id", false, .prim .str)]⟩⟩
def status : Op :=
  ⟨"sync", "status", .query, none, .objT ⟨[("hasServerData", false, .prim .bool)]⟩⟩

end sync

/-- The full contract `AppRouter` of `router.ts`, as the list of its
operations in source order. -/
def AppRouter : List Op := [
  spaces.list, spaces.create, spaces.update, spaces.delete, spaces.reorder,
  groups.list, groups.create, groups.update, groups.delete, groups.reorder,
  bookmarks.list, bookmarks.create, bookmarks.update, bookmarks.delete,
  bookmarks.reorder, bookmarks.move,
  sync.ensureUser, sync.status]

/-- The operation of the contract at a given family/name path, if any. -/
def routerOp (fam op : String) : Option Op :=
  AppRouter.find? fun o => o.family == fam && o.name == op

/-- Whether an operation's declared input shape has a field of the given
name (`false` for the input-less queries). -/
def inputHasField (op : Op) (k : String) : Bool :=
  match op.input with
  | some t => declaredField t.fields k
  | none => false

/-- If an object value satisfies a list of declared fields containing the
required field `k`, then `k` is present in the value and well-typed. -/
theorem satFields_required {kvs : List (String × Value)}
    {fs : List (String × Bool × FieldTy)} {k : String} {ft : FieldTy}
    (hmem : (k, false, ft) ∈ fs) (hsat : satFields kvs fs = true) :
    ∃ v, lookupField k kvs = some v ∧ satFieldTy v ft = true := by
  have h := List.all_eq_true.mp hsat _ hmem
  cases hl : lookupField k kvs with
  | none => simp [hl] at h
  | some v => exact ⟨v, rfl, by simpa [hl] using h⟩

/-- If an object value satisfies an object type with required field `k`
(under either strictness), then `k` is present and well-typed. -/
theorem satObj_required {strict : Bool} {kvs : List (String × Value)}
    {t : ObjTy} {k : String} {ft : FieldTy} (hmem : (k, false, ft) ∈ t.fields)
    (hsat : satObj strict (.vobj kvs) t = true) :
    ∃ v, lookupField k kvs = some v ∧ satFieldTy v ft = true := by
  have hf : satFields kvs t.fields = true := by
    simp only [satObj, Bool.and_eq_true] at hsat
    exact hsat.1
  exact satFields_required hmem hf

/-- An object value missing a required field of an object type does not
satisfy the type (under either strictness). -/
theorem satObj_missing {strict : Bool} {kvs : List (String × Value)}
    {t : ObjTy} {k : String} {ft : FieldTy} (hmem : (k, false, ft) ∈ t.fields)
    (hnone : lookupField k kvs = none) :
    satObj strict (.vobj kvs) t = false := by
  cases hs : satObj strict (.vobj kvs) t with
  | false => rfl
  | true =>
    obtain ⟨v, hv, -⟩ := satObj_required hmem hs
    rw [hnone] at hv
    cases hv

/-- C1 (counterexample): `faviconUrl` is not among the declared fields of the
`bookmarks.create` input shape, and a create input that supplies all required
fields plus `faviconUrl` is rejected by the contract's static shape (the
literal excess-property check), contrary to the claim. -/
theorem bookmarksCreate_faviconUrl_rejected :
    declaredField bookmarks.createInput.fields "faviconUrl" = false ∧
    satObj true (.vobj [("id", .vstr "b1"), ("spaceId", .vstr "s1"),
      ("groupId", .vstr "g1"), ("title", .vstr "T"),
      ("url", .vstr "https://e.com"), ("description", .vstr "d"),
      ("order", .vnum 0), ("faviconUrl", .vstr "https://e.com/f.ico")])
      bookmarks.createInput = false := by
  decide

/-- C1 (amended): the `bookmarks.create` input shape accepts the
entity-specific fields `title`, `url` and optional `description` together
with the required parents `spaceId`, `groupId` (plus caller-supplied `id`
and `order`) — but not `faviconUrl`, which is absent from the create input
and is declared only on `bookmarks.update`. A create input without
`faviconUrl` satisfies the shape, and its required fields are exactly
id, spaceId, groupId, title, url, order. -/
theorem bookmarksCreate_fields :
    satObj true (.vobj [("id", .vstr "b1"), ("spaceId", .vstr "s1"),
      ("groupId", .vstr "g1"), ("title", .vstr "T"),
      ("url", .vstr "https://e.com"), ("description", .vstr "d"),
      ("order", .vnum 0)]) bookmarks.createInput = true ∧
    requiredNames bookmarks.createInput =
      ["id", "spaceId", "groupId", "title", "url", "order"] ∧
    declaredField bookmarks.createInput.fields "faviconUrl" = false ∧
    declaredField bookmarks.updateInput.fields "faviconUrl" = true := by
  decide

/-- C3: for each of `spaces.update`, `groups.update` and `bookmarks.update`,
an input containing only the identifying `id` field satisfies the declared
input shape: `id` is the only required field, so every other field may be
omitted. -/
theorem update_only_id_suffices :
    satObj true (.vobj [("id", .vstr "s1")]) spaces.updateInput = true ∧
    satObj true (.vobj [("id", .vstr "g1")]) groups.updateInput = true ∧
    satObj true (.vobj [("id", .vstr "b1")]) bookmarks.updateInput = true ∧
    requiredNames spaces.updateInput = ["id"] ∧
    requiredNames groups.updateInput = ["id"] ∧
    requiredNames bookmarks.updateInput = ["id"] := by
  decide

/-- C6: every `list`, `create` and `update` operation of the three entity
families outputs exactly the declared entity shape (`list` an array of it),
and each entity shape admits both a textual and a native-date representation
of `createdAt`/`updatedAt`: a complete sample value of each entity satisfies
the shape with string timestamps and again with date timestamps. -/
theorem entity_roundtrip_shapes :
    spaces.list.output = .arrObjT Space ∧
    spaces.create.output = .objT Space ∧
    spaces.update.output = .objT Space ∧
    groups.list.output = .arrObjT Group ∧
    groups.create.output = .objT Group ∧
    groups.update.output = .objT Group ∧
    bookmarks.list.output = .arrObjT Bookmark ∧
    bookmarks.create.output = .objT Bookmark ∧
    bookmarks.update.output = .objT Bookmark ∧
    satObj false (.vobj [("id", .vstr "s1"), ("userId", .vstr "u1"),
      ("name", .vstr "Work"), ("order", .vnum 0),
      ("isArchived", .vbool false),
      ("createdAt", .vstr "2024-01-01T00:00:00Z"),
      ("updatedAt", .vstr "2024-01-02T00:00:00Z")]) Space = true ∧
    satObj false (.vobj [("id", .vstr "s1"), ("userId", .vstr "u1"),
      ("name", .vstr "Work"), ("order", .vnum 0),
      ("isArchived", .vbool false),
      ("createdAt", .vdate 1704067200000),
      ("updatedAt", .vdate 1704153600000)]) Space = true ∧
    satObj false (.vobj [("id", .vstr "g1"), ("userId", .vstr "u1"),
      ("spaceId", .vstr "s1"), ("name", .vstr "Reading"),
      ("order", .vnum 1), ("isArchived", .vbool false),
      ("createdAt", .vstr "2024-01-01T00:00:00Z"),
      ("updatedAt", .vstr "2024-01-02T00:00:00Z")]) Group = true ∧
    satObj false (.vobj [("id", .vstr "g1"), ("userId", .vstr "u1"),
      ("spaceId", .vstr "s1"), ("name", .vstr "Reading"),
      ("order", .vnum 1), ("isArchived", .vbool false),
      ("createdAt", .vdate 1704067200000),
      ("updatedAt", .vdate 1704153600000)]) Group = true ∧
    satObj false (.vobj [("id", .vstr "b1"), ("userId", .vstr "u1"),
      ("spaceId", .vstr "s1"), ("groupId", .vstr "g1"),
      ("title", .vstr "T"), ("url", .vstr "https://e.com"),
      ("order", .vnum 2), ("isPinned", .vbool false),
      ("isArchived", .vbool false),
      ("createdAt", .vstr "2024-01-01T00:00:00Z"),
      ("updatedAt", .vstr "2024-01-02T00:00:00Z")]) Bookmark = true ∧
    satObj false (.vobj [("id", .vstr "b1"), ("userId", .vstr "u1"),
      ("spaceId", .vstr "s1"), ("groupId", .vstr "g1"),
      ("title", .vstr "T"), ("url", .vstr "https://e.com"),
      ("order", .vnum 2), ("isPinned", .vbool false),
      ("isArchived", .vbool false),
      ("createdAt", .vdate 1704067200000),
      ("updatedAt", .vdate 1704153600000)]) Bookmark = true := by
  decide

/-- C8: in every update input shape, the clearable optional fields (`icon`,
`color` on spaces; `icon` on groups; `description`, `faviconUrl` on
bookmarks) are declared as optional string-or-null, and all three states
satisfy the shape: present with a string, present as null, or absent. -/
theorem update_nullable_three_state :
    declaredType spaces.updateInput "icon" = some (true, .union2 .str .null) ∧
    declaredType spaces.updateInput "color" = some (true, .union2 .str .null) ∧
    declaredType groups.updateInput "icon" = some (true, .union2 .str .null) ∧
    declaredType bookmarks.updateInput "description" =
      some (true, .union2 .str .null) ∧
    declaredType bookmarks.updateInput "faviconUrl" =
      some (true, .union2 .str .null) ∧
    satObj true (.vobj [("id", .vstr "s1"), ("icon", .vstr "star"),
      ("color", .vstr "#fff")]) spaces.updateInput = true ∧
    satObj true (.vobj [("id", .vstr "s1"), ("icon", .vnull),
      ("color", .vnull)]) spaces.updateInput = true ∧
    satObj true (.vobj [("id", .vstr "s2")]) spaces.updateInput = true ∧
    satObj true (.vobj [("id", .vstr "g1"), ("icon", .vnull)])
      groups.updateInput = true ∧
    satObj true (.vobj [("id", .vstr "g1"), ("icon", .vstr "book")])
      groups.updateInput = true ∧
    satObj true (.vobj [("id", .vstr "g2")]) groups.updateInput = true ∧
    satObj true (.vobj [("id", .vstr "b1"), ("description", .vnull),
      ("faviconUrl", .vnull)]) bookmarks.updateInput = true ∧
    satObj true (.vobj [("id", .vstr "b1"), ("description", .vstr "d"),
      ("faviconUrl", .vstr "https://e.com/f.ico")])
      bookmarks.updateInput = true ∧
    satObj true (.vobj [("id", .vstr "b2")]) bookmarks.updateInput = true := by
  decide

/-- C2: the input `{id, groupId, spaceId}` satisfies the `bookmarks.move`
input shape; `move` is a distinct operation from `bookmarks.update` with a
different input shape — any input lacking one of `id`, `groupId`, `spaceId`
does not satisfy `move`'s shape (under either strictness), whereas an input
with only `id` satisfies `update`'s shape but not `move`'s — and `move`
returns a Bookmark. -/
theorem bookmarksMove_distinct (strict : Bool) (kvs : List (String × Value))
    (h : lookupField "id" kvs = none ∨ lookupField "groupId" kvs = none ∨
      lookupField "spaceId" kvs = none) :
    satObj strict (.vobj kvs) bookmarks.moveInput = false ∧
    satObj true (.vobj [("id", .vstr "b1"), ("groupId", .vstr "g2"),
      ("spaceId", .vstr "s2")]) bookmarks.moveInput = true ∧
    satObj true (.vobj [("id", .vstr "b1")]) bookmarks.updateInput = true ∧
    satObj true (.vobj [("id", .vstr "b1")]) bookmarks.moveInput = false ∧
    bookmarks.move.output = .objT Bookmark := by
  refine ⟨?_, by decide, by decide, by decide, rfl⟩
  rcases h with h | h | h
  · exact @satObj_missing strict kvs bookmarks.moveInput "id" (.prim .str)
      (by decide) h
  · exact @satObj_missing strict kvs bookmarks.moveInput "groupId" (.prim .str)
      (by decide) h
  · exact @satObj_missing strict kvs bookmarks.moveInput "spaceId" (.prim .str)
      (by decide) h

/-- Witness for C2's theorem at the concrete input `{groupId, spaceId}`
(missing `id`). -/
theorem bookmarksMove_distinct_witness :
    satObj true (.vobj [("groupId", .vstr "g2"), ("spaceId", .vstr "s2")])
      bookmarks.moveInput = false ∧
    satObj true (.vobj [("id", .vstr "b1"), ("groupId", .vstr "g2"),
      ("spaceId", .vstr "s2")]) bookmarks.moveInput = true ∧
    satObj true (.vobj [("id", .vstr "b1")]) bookmarks.updateInput = true ∧
    satObj true (.vobj [("id", .vstr "b1")]) bookmarks.moveInput = false ∧
    bookmarks.move.output = .objT Bookmark :=
  bookmarksMove_distinct true
    [("groupId", Value.vstr "g2"), ("spaceId", Value.vstr "s2")] (Or.inl rfl)

/-- C4: the `groups.reorder` input shape requires both `spaceId` (the
ordering scope) and `orderedIds`: any satisfying input contains both fields,
the input `{spaceId, orderedIds}` satisfies the shape, and an input
providing only `orderedIds` does not. -/
theorem groupsReorder_requires_scope (kvs : List (String × Value))
    (h : satObj true (.vobj kvs) groups.reorderInput = true) :
    (lookupField "spaceId" kvs).isSome = true ∧
    (lookupField "orderedIds" kvs).isSome = true ∧
    satObj true (.vobj [("spaceId", .vstr "s1"),
      ("orderedIds", .varr [.vstr "g1", .vstr "g2"])])
      groups.reorderInput = true ∧
    satObj true (.vobj [("orderedIds", .varr [.vstr "g1", .vstr "g2"])])
      groups.reorderInput = false := by
  obtain ⟨v1, hv1, -⟩ := @satObj_required true kvs groups.reorderInput
    "spaceId" (.prim .str) (by decide) h
  obtain ⟨v2, hv2, -⟩ := @satObj_required true kvs groups.reorderInput
    "orderedIds" (.arrOf .str) (by decide) h
  exact ⟨by simp [hv1], by simp [hv2], by decide, by decide⟩

/-- Witness for C4's theorem at the concrete conforming input
`{spaceId, orderedIds}`. -/
theorem groupsReorder_requires_scope_witness :
    (lookupField "spaceId" [("spaceId", Value.vstr "s1"),
      ("orderedIds", Value.varr [Value.vstr "g1", Value.vstr "g2"])]).isSome
      = true ∧
    (lookupField "orderedIds" [("spaceId", Value.vstr "s1"),
      ("orderedIds", Value.varr [Value.vstr "g1", Value.vstr "g2"])]).isSome
      = true ∧
    satObj true (.vobj [("spaceId", .vstr "s1"),
      ("orderedIds", .varr [.vstr "g1", .vstr "g2"])])
      groups.reorderInput = true ∧
    satObj true (.vobj [("orderedIds", .varr [.vstr "g1", .vstr "g2"])])
      groups.reorderInput = false :=
  groupsReorder_requires_scope
    [("spaceId", Value.vstr "s1"),
      ("orderedIds", Value.varr [Value.vstr "g1", Value.vstr "g2"])]
    (by decide)

/-- C5: an operation of the contract outputs the shape
`{ success: boolean }` exactly when it is a `delete` or a `reorder`
operation — all six delete/reorder operations of the three entity families
return it, and no other operation does. -/
theorem success_shape_delete_reorder :
    ∀ op ∈ AppRouter,
      (op.output = .objT successShape ↔
        (op.name = "delete" ∨ op.name = "reorder")) := by
  decide

/-- Witness for C5's theorem at the concrete operation `spaces.delete`. -/
theorem success_shape_delete_reorder_witness :
    spaces.delete.output = .objT successShape ↔
      (spaces.delete.name = "delete" ∨ spaces.delete.name = "reorder") :=
  success_shape_delete_reorder spaces.delete (by decide)

/-- C7: the `spaces.create` input shape requires exactly `id`, `name` and
`order` (with `icon` and `color` optional): any satisfying input contains
all three, `{id, name, order}` satisfies the shape with or without
`icon`/`color`, and dropping any one of the three required fields breaks
satisfaction. -/
theorem spacesCreate_required (kvs : List (String × Value))
    (h : satObj true (.vobj kvs) spaces.createInput = true) :
    (lookupField "id" kvs).isSome = true ∧
    (lookupField "name" kvs).isSome = true ∧
    (lookupField "order" kvs).isSome = true ∧
    requiredNames spaces.createInput = ["id", "name", "order"] ∧
    satObj true (.vobj [("id", .vstr "s1"), ("name", .vstr "Work"),
      ("order", .vnum 0)]) spaces.createInput = true ∧
    satObj true (.vobj [("id", .vstr "s1"), ("name", .vstr "Work"),
      ("order", .vnum 0), ("icon", .vstr "star"), ("color", .vstr "#fff")])
      spaces.createInput = true ∧
    satObj true (.vobj [("name", .vstr "Work"), ("order", .vnum 0)])
      spaces.createInput = false ∧
    satObj true (.vobj [("id", .vstr "s1"), ("order", .vnum 0)])
      spaces.createInput = false ∧
    satObj true (.vobj [("id", .vstr "s1"), ("name", .vstr "Work")])
      spaces.createInput = false := by
  obtain ⟨v1, hv1, -⟩ := @satObj_required true kvs spaces.createInput
    "id" (.prim .str) (by decide) h
  obtain ⟨v2, hv2, -⟩ := @satObj_required true kvs spaces.createInput
    "name" (.prim .str) (by decide) h
  obtain ⟨v3, hv3, -⟩ := @satObj_required true kvs spaces.createInput
    "order" (.prim .num) (by decide) h
  exact ⟨by simp [hv1], by simp [hv2], by simp [hv3],
    by decide, by decide, by decide, by decide, by decide, by decide⟩

/-- Witness for C7's theorem at the concrete conforming input
`{id, name, order}`. -/
theorem spacesCreate_required_witness :
    (lookupField "id" [("id", Value.vstr "s1"), ("name", Value.vstr "Work"),
      ("order", Value.vnum 0)]).isSome = true ∧
    (lookupField "name" [("id", Value.vstr "s1"), ("name", Value.vstr "Work"),
      ("order", Value.vnum 0)]).isSome = true ∧
    (lookupField "order" [("id", Value.vstr "s1"), ("name", Value.vstr "Work"),
      ("order", Value.vnum 0)]).isSome = true ∧
    requiredNames spaces.createInput = ["id", "name", "order"] ∧
    satObj true (.vobj [("id", .vstr "s1"), ("name", .vstr "Work"),
      ("order", .vnum 0)]) spaces.createInput = true ∧
    satObj true (.vobj [("id", .vstr "s1"), ("name", .vstr "Work"),
      ("order", .vnum 0), ("icon", .vstr "star"), ("color", .vstr "#fff")])
      spaces.createInput = true ∧
    satObj true (.vobj [("name", .vstr "Work"), ("order", .vnum 0)])
      spaces.createInput = false ∧
    satObj true (.vobj [("id", .vstr "s1"), ("order", .vnum 0)])
      spaces.createInput = false ∧
    satObj true (.vobj [("id", .vstr "s1"), ("name", .vstr "Work")])
      spaces.createInput = false :=
  spacesCreate_required
    [("id", Value.vstr "s1"), ("name", Value.vstr "Work"),
      ("order", Value.vnum 0)]
    (by decide)

/-- C9: no update operation's input shape includes the `order` field, while
each of the three entity families has a dedicated `reorder` operation — so
at the contract level an entity's `order` can only be changed through
`reorder`, never through `update`. -/
theorem order_not_updatable (op : Op) (h1 : op ∈ AppRouter)
    (h2 : op.name = "update") :
    inputHasField op "order" = false ∧
    (routerOp "spaces" "reorder").isSome = true ∧
    (routerOp "groups" "reorder").isSome = true ∧
    (routerOp "bookmarks" "reorder").isSome = true := by
  refine ⟨?_, by decide, by decide, by decide⟩
  have hall : ∀ o ∈ AppRouter, o.name = "update" →
      inputHasField o "order" = false := by decide
  exact hall op h1 h2

/-- Witness for C9's theorem at the concrete operation `spaces.update`. -/
theorem order_not_updatable_witness :
    inputHasField spaces.update "order" = false ∧
    (routerOp "spaces" "reorder").isSome = true ∧
    (routerOp "groups" "reorder").isSome = true ∧
    (routerOp "bookmarks" "reorder").isSome = true :=
  order_not_updatable spaces.update (by decide) rfl

/-- C10: no declared input shape anywhere in the contract contains a
`userId` field, even though all three entity output shapes include
`userId` — the caller can never supply or change the owning user through
any declared input. -/
theorem userId_never_in_input (op : Op) (h : op ∈ AppRouter) :
    inputHasField op "userId" = false ∧
    declaredField Space.fields "userId" = true ∧
    declaredField Group.fields "userId" = true ∧
    declaredField Bookmark.fields "userId" = true := by
  refine ⟨?_, by decide, by decide, by decide⟩
  have hall : ∀ o ∈ AppRouter, inputHasField o "userId" = false := by decide
  exact hall op h

/-- Witness for C10's theorem at the concrete operation `sync.ensureUser`. -/
theorem userId_never_in_input_witness :
    inputHasField sync.ensureUser "userId" = false ∧
    declaredField Space.fields "userId" = true ∧
    declaredField Group.fields "userId" = true ∧
    declaredField Bookmark.fields "userId" = true :=
  userId_never_in_input sync.ensureUser (by decide)

end BookmarksContract
